import Mathlib

/-
Shallow embedding of the MoviePlayer component
(src/src/components/MoviePlayer.tsx) of the web-movie-player repository.

The component is a React function component; its handlers read and write
React state hooks and the native video element. We embed the React state as
the structure PlayerState (one field per useState hook that the claims
touch), the native media element as VideoElem (an Option VideoElem stands
for the nullable videoRef.current), and each handler as a pure function
from its inputs and the prior state to the new state. Browser object URLs
(URL.createObjectURL) are modelled by a UrlLedger environment that records
every created and every revoked URL; the source contains no call to
URL.revokeObjectURL, so no embedded operation touches the revoked list.
-/

/-- A dropped or picked browser file: its name and MIME type. -/
structure WebFile where
  name : String
  type : String
deriving DecidableEq

/-- SubtitleTrack interface (MoviePlayer.tsx lines 23-28). -/
structure SubtitleTrack where
  id : String
  label : String
  language : String
  src : String
deriving DecidableEq

/-- The native video element fields the handlers touch; videoRef.current
is modelled as Option VideoElem, none standing for null. -/
structure VideoElem where
  currentTime : Rat
  duration : Rat
  volume : Rat
  muted : Bool
deriving DecidableEq

/-- React state of the component: one field per useState hook used by the
claims, with the initial values of lines 38-58 as defaults. -/
structure PlayerState where
  videoFile : Option String := none
  fileName : String := ""
  fileFormat : String := ""
  videoError : Option String := none
  isVideoLoaded : Bool := false
  isPlaying : Bool := false
  currentTime : Rat := 0
  duration : Rat := 0
  volume : Rat := 1
  isMuted : Bool := false
  subtitleTracks : List SubtitleTrack := []
  selectedSubtitleTrack : String := "off"
  isBuffering : Bool := false
  playbackRate : Rat := 1
deriving DecidableEq

/-- The initial React state (the useState initial values). -/
def initState : PlayerState := {}

/-- Environment for URL.createObjectURL and URL.revokeObjectURL: the URLs
created so far and the URLs revoked so far. The source never calls
URL.revokeObjectURL, so no operation below ever extends revoked. -/
structure UrlLedger where
  nextId : Nat := 0
  created : List String := []
  revoked : List String := []
deriving DecidableEq

/-- The initial, empty URL ledger. -/
def initLedger : UrlLedger := {}

/-- URL.createObjectURL: returns a fresh blob URL and records it. -/
def createObjectURL (led : UrlLedger) : String × UrlLedger :=
  let url := "blob:" ++ toString led.nextId
  (url, { led with nextId := led.nextId + 1, created := led.created ++ [url] })

/-- The regex replace of line 100 and line 136,
file.name.replace of a final dot-extension by the empty string: scanning
the reversed characters, consume non-dot non-slash characters up to the
first dot and return what remains, or none when there is no match. -/
def stripExtGo : List Char → Option (List Char)
  | [] => none
  | c :: rest =>
    if c = '.' then some rest
    else if c = '/' then none
    else stripExtGo rest

/-- Remove a trailing dot-extension from a file name (the regex of
lines 100 and 136): the match needs at least one character after the final
dot, none of them a dot or a slash. -/
def stripExt (name : String) : String :=
  match name.toList.reverse with
  | [] => name
  | c :: rest =>
    if c = '.' ∨ c = '/' then name
    else
      match stripExtGo (c :: rest) with
      | some r => String.mk r.reverse
      | none => name

/-- The video predicate of line 115: file.type starts with video slash. -/
def isVideoFileP (f : WebFile) : Bool :=
  ("video/").toList.isPrefixOf f.type.toList

/-- Suffix test on strings by comparing reversed character lists. -/
def strEndsWith (s suffix : String) : Bool :=
  suffix.toList.reverse.isPrefixOf s.toList.reverse

/-- The subtitle predicate of lines 116-121: the file name ends in one of
the four subtitle extensions. -/
def isSubtitleFileP (f : WebFile) : Bool :=
  strEndsWith f.name (".srt") || strEndsWith f.name (".vtt") ||
  strEndsWith f.name (".ass") || strEndsWith f.name (".ssa")

/-- handleFileSelect (lines 73-91): on a picked file, reset error, loaded
flag, playing flag, currentTime and duration, create an object URL for the
file, install it with name and format, and clear the subtitle tracks and
the subtitle selection. The Option WebFile argument embeds
event.target.files at index 0, none when absent. -/
def handleFileSelect (file : Option WebFile) (s : PlayerState) (led : UrlLedger) :
    PlayerState × UrlLedger :=
  match file with
  | none => (s, led)
  | some f =>
    let r := createObjectURL led
    ({ s with
        videoError := none
        isVideoLoaded := false
        isPlaying := false
        currentTime := 0
        duration := 0
        videoFile := some r.1
        fileName := f.name
        fileFormat := if f.type = "" then "Unknown" else f.type
        subtitleTracks := []
        selectedSubtitleTrack := "off" }, r.2)

/-- handleDrop (lines 111-144): find the first video file and the first
subtitle file among the dropped files; when a video file is present,
install its object URL, name and format and clear the error and the loaded
flag; when a subtitle file is present, append it as a new track (id built
from Date.now, embedded as the argument now) and select it. -/
def handleDrop (files : List WebFile) (now : Nat) (s : PlayerState) (led : UrlLedger) :
    PlayerState × UrlLedger :=
  let videoFile := files.find? isVideoFileP
  let subtitleFile := files.find? isSubtitleFileP
  let step1 : PlayerState × UrlLedger :=
    match videoFile with
    | none => (s, led)
    | some vf =>
      let r := createObjectURL led
      ({ s with
          videoFile := some r.1
          fileName := vf.name
          fileFormat := if vf.type = "" then "Unknown" else vf.type
          videoError := none
          isVideoLoaded := false }, r.2)
  match subtitleFile with
  | none => step1
  | some sf =>
    let r := createObjectURL step1.2
    let newTrack : SubtitleTrack :=
      { id := "subtitle-" ++ toString now
        label := stripExt sf.name
        language := "Unknown"
        src := r.1 }
    ({ step1.1 with
        subtitleTracks := step1.1.subtitleTracks ++ [newTrack]
        selectedSubtitleTrack := newTrack.id }, r.2)

/-- The Choose Different File click handler (lines 519-523): discard the
current source after an error. It clears videoFile, videoError and
fileName and, like every other operation in the source, never revokes the
object URL. -/
def chooseDifferentFile (s : PlayerState) (led : UrlLedger) :
    PlayerState × UrlLedger :=
  ({ s with videoFile := none, videoError := none, fileName := "" }, led)

/-- The player operations a keyboard shortcut can invoke. -/
inductive PlayerAction where
  | togglePlayPause
  | toggleMute
  | skipBackward
  | skipForward
  | toggleFullscreen
deriving DecidableEq

/-- The observable effect of one keydown dispatch: the invoked operation,
if any, and whether showControlsWithTimeout is also called. -/
structure KeyEffect where
  action : Option PlayerAction
  restartControlsTimer : Bool
deriving DecidableEq

/-- handleKeyPress (lines 240-284): when event.target is an input element
the dispatcher returns without acting; otherwise event.code selects the
operation, every shortcut except fullscreen also restarting the controls
timer; unlisted codes do nothing. -/
def handleKeyPress (targetIsInput : Bool) (code : String) : KeyEffect :=
  if targetIsInput then { action := none, restartControlsTimer := false }
  else
    match code with
    | "Space" => { action := some PlayerAction.togglePlayPause, restartControlsTimer := true }
    | "KeyM" => { action := some PlayerAction.toggleMute, restartControlsTimer := true }
    | "ArrowLeft" => { action := some PlayerAction.skipBackward, restartControlsTimer := true }
    | "ArrowRight" => { action := some PlayerAction.skipForward, restartControlsTimer := true }
    | "KeyF" => { action := some PlayerAction.toggleFullscreen, restartControlsTimer := false }
    | "KeyK" => { action := some PlayerAction.togglePlayPause, restartControlsTimer := true }
    | "KeyJ" => { action := some PlayerAction.skipBackward, restartControlsTimer := true }
    | "KeyL" => { action := some PlayerAction.skipForward, restartControlsTimer := true }
    | _ => { action := none, restartControlsTimer := false }

/-- Controls-visibility state: the showControls hook, the isPlaying hook,
and whether the 3-second auto-hide timeout of controlsTimeoutRef is
currently pending. -/
structure ControlsState where
  showControls : Bool
  isPlaying : Bool
  timerArmed : Bool
deriving DecidableEq

/-- showControlsWithTimeout (lines 225-237): show the controls, cancel any
pending timeout, and arm a fresh 3-second timeout only when playing. -/
def showControlsWithTimeout (s : ControlsState) : ControlsState :=
  { s with showControls := true, timerArmed := s.isPlaying }

/-- handleMouseLeave (lines 367-371): hide the controls only when
playing. -/
def handleMouseLeave (s : ControlsState) : ControlsState :=
  if s.isPlaying then { s with showControls := false } else s

/-- The pending 3-second timeout firing (lines 233-235): hide the
controls; the timeout is then spent. -/
def controlsTimerFire (s : ControlsState) : ControlsState :=
  { s with showControls := false, timerArmed := false }

/-- The controls overlay render condition of lines 565-568: the overlay is
shown when showControls is true or playback is not playing. -/
def controlsVisible (s : ControlsState) : Bool :=
  s.showControls || !s.isPlaying

/-- The switch of lines 337-352 mapping a native MediaError code to the
user-facing message. -/
def errorMessageForCode (code : Nat) : String :=
  if code = 1 then "Video loading was aborted"
  else if code = 2 then "Network error occurred while loading video"
  else if code = 3 then "Video format not supported or corrupted"
  else if code = 4 then "Video format not supported by your browser"
  else "Unknown video error occurred"

/-- handleError (lines 331-355): clear buffering and playing, then, only
when the element exists and exposes an error object, surface the message
for its code. The Option Nat argument embeds video.error.code, none when
video or video.error is null. -/
def handleError (err : Option Nat) (s : PlayerState) : PlayerState :=
  let s1 := { s with isBuffering := false, isPlaying := false }
  match err with
  | none => s1
  | some code => { s1 with videoError := some (errorMessageForCode code) }

/-- handleVolumeChange (lines 182-190): store the new volume, store
muted as (volume equals zero), and mirror both onto the native element
when it exists. -/
def handleVolumeChange (newVolume : Rat) (s : PlayerState) (video : Option VideoElem) :
    PlayerState × Option VideoElem :=
  ({ s with volume := newVolume, isMuted := decide (newVolume = 0) },
   video.map fun v => { v with volume := newVolume, muted := decide (newVolume = 0) })

/-- toggleMute (lines 175-180): when the element exists, store the negated
muted flag and set the element muted flag to that same negation; the
stored volume is untouched. -/
def toggleMute (s : PlayerState) (video : Option VideoElem) :
    PlayerState × Option VideoElem :=
  match video with
  | none => (s, none)
  | some e => ({ s with isMuted := !s.isMuted }, some { e with muted := !s.isMuted })

/-- skipBackward (lines 162-166): clamp the element position down by 10
seconds, not below zero. -/
def skipBackward (video : VideoElem) : VideoElem :=
  { video with currentTime := max 0 (video.currentTime - 10) }

/-- skipForward (lines 168-172): advance the element position by 10
seconds, capped at the duration state hook. -/
def skipForward (duration : Rat) (video : VideoElem) : VideoElem :=
  { video with currentTime := min duration (video.currentTime + 10) }

/-- handleProgressClick (lines 213-222): the click x offset inside the bar
over the bar width gives a fraction, times the duration state gives the
seek target written to the element. -/
def handleProgressClick (clientX rectLeft width duration : Rat) (video : VideoElem) :
    VideoElem :=
  let clickX := clientX - rectLeft
  let percentage := clickX / width
  let newTime := percentage * duration
  { video with currentTime := newTime }

/-- A concrete prior subtitle track, used to exhibit state that a drop
fails to clear. -/
def exTrack : SubtitleTrack :=
  { id := "subtitle-1", label := "old", language := "Unknown", src := "blob:9" }

/-- A concrete prior state with a subtitle track selected and a nonzero
playback position. -/
def dirtyState : PlayerState :=
  { initState with
      subtitleTracks := [exTrack]
      selectedSubtitleTrack := "subtitle-1"
      currentTime := 42
      duration := 100 }

/-- A concrete video file for counterexamples. -/
def exVideoFile : WebFile := { name := "m.mp4", type := "video/mp4" }

/-- A second concrete video file. -/
def exVideoFileB : WebFile := { name := "n.webm", type := "video/webm" }

/-- Dropping only a video file onto dirtyState. -/
def dropOnlyVideoResult : PlayerState :=
  (handleDrop [exVideoFile] 9 dirtyState initLedger).1

/-- State and ledger after picking exVideoFile from the initial state. -/
def afterFirstSelect : PlayerState × UrlLedger :=
  handleFileSelect (some exVideoFile) initState initLedger

/-- State and ledger after then picking exVideoFileB, superseding the
first object URL. -/
def afterSecondSelect : PlayerState × UrlLedger :=
  handleFileSelect (some exVideoFileB) afterFirstSelect.1 afterFirstSelect.2

/-- State and ledger after then discarding via Choose Different File. -/
def afterDiscard : PlayerState × UrlLedger :=
  chooseDifferentFile afterSecondSelect.1 afterSecondSelect.2

/-- A concrete native video element in its freshly created condition. -/
def initVideoElem : VideoElem :=
  { currentTime := 0, duration := 0, volume := 1, muted := false }

/-- Claim C1, counterexample: dropping a video file (drag-and-drop path,
handleDrop) onto a state that has a subtitle track loaded and selected and
a nonzero playback position leaves the subtitle list nonempty, the
selection not off, and currentTime nonzero — the drop path does not
perform the reset the claim asserts for every selection path. -/
theorem C1_counterexample :
    dropOnlyVideoResult.subtitleTracks ≠ []
    ∧ dropOnlyVideoResult.selectedSubtitleTrack ≠ "off"
    ∧ dropOnlyVideoResult.currentTime ≠ 0
    ∧ dropOnlyVideoResult.duration ≠ 0 := by
  decide

/-- Claim C1, amended: selecting a new video through the file picker
(handleFileSelect) empties the subtitle list, sets the selection to off,
zeroes currentTime and duration and clears the error; selecting through
drag-and-drop (handleDrop, here with a video file found and no subtitle
file dropped) only clears the error — subtitle list, subtitle selection,
currentTime and duration keep their previous values. -/
theorem C1_amended_resets (f : WebFile) (s : PlayerState) (led : UrlLedger)
    (files : List WebFile) (now : Nat) (vf : WebFile)
    (hv : files.find? isVideoFileP = some vf)
    (hs : files.find? isSubtitleFileP = none) :
    ((handleFileSelect (some f) s led).1.subtitleTracks = []
      ∧ (handleFileSelect (some f) s led).1.selectedSubtitleTrack = "off"
      ∧ (handleFileSelect (some f) s led).1.currentTime = 0
      ∧ (handleFileSelect (some f) s led).1.duration = 0
      ∧ (handleFileSelect (some f) s led).1.videoError = none)
    ∧ ((handleDrop files now s led).1.videoError = none
      ∧ (handleDrop files now s led).1.subtitleTracks = s.subtitleTracks
      ∧ (handleDrop files now s led).1.selectedSubtitleTrack = s.selectedSubtitleTrack
      ∧ (handleDrop files now s led).1.currentTime = s.currentTime
      ∧ (handleDrop files now s led).1.duration = s.duration) := by
  refine ⟨⟨rfl, rfl, rfl, rfl, rfl⟩, ?_⟩
  simp [handleDrop, hv, hs]

/-- Claim C1, witness: the amended theorem applied to a concrete one-file
drop onto dirtyState. -/
theorem C1_amended_witness :
    ([exVideoFileB].find? isVideoFileP = some exVideoFileB)
    ∧ ([exVideoFileB].find? isSubtitleFileP = none)
    ∧ (handleDrop [exVideoFileB] 3 dirtyState initLedger).1.currentTime
        = dirtyState.currentTime :=
  ⟨by decide, by decide,
    (C1_amended_resets exVideoFile dirtyState initLedger [exVideoFileB] 3 exVideoFileB
      (by decide) (by decide)).2.2.2.2.1⟩

/-- Claim C2: the source contains no call to URL.revokeObjectURL, so after
a first selection, a superseding second selection and a discard through
Choose Different File, two object URLs have been created and the set of
revoked URLs is still empty — the superseded MediaSource URL is never
released. -/
theorem C2_no_revocation :
    afterDiscard.2.created = ["blob:0", "blob:1"]
    ∧ afterDiscard.2.revoked = [] := by
  decide

/-- Claim C3: when an input element has focus the keyboard dispatcher
performs no action at all; otherwise Space and K toggle play-pause, M
toggles mute, ArrowLeft and J skip backward, ArrowRight and L skip
forward, and F toggles fullscreen. -/
theorem C3_keyboard_dispatch :
    (∀ code : String,
      handleKeyPress true code = { action := none, restartControlsTimer := false })
    ∧ (handleKeyPress false ("Space")
        = { action := some PlayerAction.togglePlayPause, restartControlsTimer := true })
    ∧ (handleKeyPress false ("KeyK")
        = { action := some PlayerAction.togglePlayPause, restartControlsTimer := true })
    ∧ (handleKeyPress false ("KeyM")
        = { action := some PlayerAction.toggleMute, restartControlsTimer := true })
    ∧ (handleKeyPress false ("ArrowLeft")
        = { action := some PlayerAction.skipBackward, restartControlsTimer := true })
    ∧ (handleKeyPress false ("KeyJ")
        = { action := some PlayerAction.skipBackward, restartControlsTimer := true })
    ∧ (handleKeyPress false ("ArrowRight")
        = { action := some PlayerAction.skipForward, restartControlsTimer := true })
    ∧ (handleKeyPress false ("KeyL")
        = { action := some PlayerAction.skipForward, restartControlsTimer := true })
    ∧ (handleKeyPress false ("KeyF")
        = { action := some PlayerAction.toggleFullscreen, restartControlsTimer := false }) :=
  ⟨fun _ => rfl, by decide⟩

/-- Claim C4: showControlsWithTimeout arms the 3-second auto-hide timeout
exactly when isPlaying is true (and always shows the controls); the
pointer leaving the player hides the controls only when playing; and when
playback is paused the render condition keeps the controls visible. -/
theorem C4_controls_visibility (s : ControlsState) :
    ((showControlsWithTimeout s).timerArmed = s.isPlaying)
    ∧ ((showControlsWithTimeout s).showControls = true)
    ∧ (s.isPlaying = true →
        (handleMouseLeave s).showControls = false
        ∧ controlsVisible (handleMouseLeave s) = false)
    ∧ (s.isPlaying = false → handleMouseLeave s = s)
    ∧ (s.isPlaying = false → controlsVisible s = true) := by
  refine ⟨rfl, rfl, ?_, ?_, ?_⟩ <;>
    intro h <;> simp [handleMouseLeave, controlsVisible, h]

/-- Claim C4, witness: pointer leave hides the controls of a concrete
playing state, and the render condition shows them in a concrete paused
state. -/
theorem C4_controls_witness :
    ((handleMouseLeave
        { showControls := true, isPlaying := true, timerArmed := true }).showControls
      = false)
    ∧ (controlsVisible
        { showControls := false, isPlaying := false, timerArmed := false } = true) :=
  ⟨((C4_controls_visibility
      { showControls := true, isPlaying := true, timerArmed := true }).2.2.1 rfl).1,
   (C4_controls_visibility
      { showControls := false, isPlaying := false, timerArmed := false }).2.2.2.2 rfl⟩

/-- Claim C5: a native error event always clears isPlaying and
isBuffering; codes 1-4 surface their four fixed messages and every other
code surfaces the generic fallback message. -/
theorem C5_error_messages (s : PlayerState) (code : Nat) :
    ((handleError (some code) s).isPlaying = false)
    ∧ ((handleError (some code) s).isBuffering = false)
    ∧ ((handleError (some 1) s).videoError = some ("Video loading was aborted"))
    ∧ ((handleError (some 2) s).videoError
        = some ("Network error occurred while loading video"))
    ∧ ((handleError (some 3) s).videoError
        = some ("Video format not supported or corrupted"))
    ∧ ((handleError (some 4) s).videoError
        = some ("Video format not supported by your browser"))
    ∧ (code ≠ 1 → code ≠ 2 → code ≠ 3 → code ≠ 4 →
        (handleError (some code) s).videoError
          = some ("Unknown video error occurred")) := by
  refine ⟨rfl, rfl, rfl, rfl, rfl, rfl, ?_⟩
  intro h1 h2 h3 h4
  simp [handleError, errorMessageForCode, h1, h2, h3, h4]

/-- Claim C5, witness: the unrecognized code 7 surfaces the fallback. -/
theorem C5_error_witness :
    ((7 : Nat) ≠ 1 ∧ (7 : Nat) ≠ 2 ∧ (7 : Nat) ≠ 3 ∧ (7 : Nat) ≠ 4)
    ∧ (handleError (some 7) initState).videoError
        = some ("Unknown video error occurred") :=
  ⟨⟨by decide, by decide, by decide, by decide⟩,
   (C5_error_messages initState 7).2.2.2.2.2.2
     (by decide) (by decide) (by decide) (by decide)⟩

/-- Claim C6: for every volume v in the unit interval, the volume change
stores v, mirrors v onto the native element, and sets muted, on both the
stored state and the element, exactly when v equals zero. -/
theorem C6_volume_change (v : Rat) (s : PlayerState) (e : VideoElem)
    (h0 : 0 ≤ v) (h1 : v ≤ 1) :
    ((handleVolumeChange v s (some e)).1.volume = v)
    ∧ ((handleVolumeChange v s (some e)).1.isMuted = true ↔ v = 0)
    ∧ ((handleVolumeChange v s (some e)).2
        = some { e with volume := v, muted := decide (v = 0) })
    ∧ (decide (v = 0) = true ↔ v = 0) := by
  refine ⟨rfl, ?_, rfl, ?_⟩ <;> simp [handleVolumeChange]

/-- Claim C6, witness: volume zero mutes a concrete state. -/
theorem C6_volume_witness :
    ((0 : Rat) ≤ 0 ∧ (0 : Rat) ≤ 1)
    ∧ (handleVolumeChange 0 initState (some initVideoElem)).1.isMuted = true :=
  ⟨⟨by norm_num, by norm_num⟩,
   (C6_volume_change 0 initState initVideoElem (by norm_num) (by norm_num)).2.1.mpr rfl⟩

/-- Claim C7: skip backward moves the element position to
max 0 (t - 10) and skip forward to min duration (t + 10). -/
theorem C7_skip (video : VideoElem) (d : Rat) :
    (skipBackward video).currentTime = max 0 (video.currentTime - 10)
    ∧ (skipForward d video).currentTime = min d (video.currentTime + 10) :=
  ⟨rfl, rfl⟩

/-- Claim C8: a progress-bar click at fraction f of the bar width seeks
the element to f times the duration. -/
theorem C8_progress_click (clientX rectLeft width d f : Rat) (video : VideoElem)
    (hf : f = (clientX - rectLeft) / width) (h0 : 0 ≤ f) (h1 : f ≤ 1) :
    (handleProgressClick clientX rectLeft width d video).currentTime = f * d := by
  subst hf
  rfl

/-- Claim C8, witness: a click at the midpoint of a width-10 bar over a
duration of 100 seeks to 50. -/
theorem C8_progress_witness :
    ((1 / 2 : Rat) = (5 - 0) / 10 ∧ (0 : Rat) ≤ 1 / 2 ∧ (1 / 2 : Rat) ≤ 1)
    ∧ (handleProgressClick 5 0 10 100 initVideoElem).currentTime = (1 / 2 : Rat) * 100 :=
  ⟨⟨by norm_num, by norm_num, by norm_num⟩,
   C8_progress_click 5 0 10 100 (1 / 2) initVideoElem (by norm_num) (by norm_num)
     (by norm_num)⟩

/-- Claim C9: when the element muted flag agrees with the stored flag,
toggling mute flips both, and neither the stored volume nor the element
volume changes. -/
theorem C9_toggle_mute (s : PlayerState) (e : VideoElem) (h : e.muted = s.isMuted) :
    ((toggleMute s (some e)).1.isMuted = !s.isMuted)
    ∧ ((toggleMute s (some e)).1.volume = s.volume)
    ∧ ((toggleMute s (some e)).2.map VideoElem.muted = some (!e.muted))
    ∧ ((toggleMute s (some e)).2.map VideoElem.volume = some e.volume) := by
  refine ⟨rfl, rfl, ?_, rfl⟩
  simp [toggleMute, h]

/-- Claim C9, witness: toggling mute on the initial state and a fresh
element flips the stored flag. -/
theorem C9_toggle_witness :
    (initVideoElem.muted = initState.isMuted)
    ∧ (toggleMute initState (some initVideoElem)).1.isMuted = !initState.isMuted :=
  ⟨rfl, (C9_toggle_mute initState initVideoElem rfl).1⟩

/-- Claim C10: a native error event with no error object still clears
isPlaying and isBuffering but leaves the stored error message exactly as
it was. -/
theorem C10_error_without_object (s : PlayerState) :
    ((handleError none s).isPlaying = false)
    ∧ ((handleError none s).isBuffering = false)
    ∧ ((handleError none s).videoError = s.videoError) :=
  ⟨rfl, rfl, rfl⟩
